import Mathlib

/-!
# Verification of the pipeline_optimiser plan-based workflow orchestrator

Shallow embedding of the orchestrator core of the `pipeline_optimiser`
repository, together with theorems settling the specification claims.

Embedded source files:
* `src/app/orchestrator/state.py`          — the `PipelineState` record
* `src/app/orchestrator/nodes.py`          — `plan_node` / `decision_node` /
  `execute_node` / `should_continue`, and the LangGraph loop they form
* `src/app/orchestrator/orchestrator.py`   — `PipelineOrchestrator.run`
* `src/app/components/base_service.py`     — `BaseService.execute_node`,
  `BaseService._save_artifact`
* `src/app/components/decision.py`         — `Decision.run`, `Decision._execute`
* `src/app/components/classifier.py`       — `Classifier._execute`,
  `Classifier._classify`, `Classifier._generate_plan`,
  `Clasifier._calculate_risk_level`, `Classifier._get_default_profile`
* `src/app/components/validator.py`        — `Validator.run`, `Validator._execute`
* `src/app/repository/pipeline_repository.py` — `save_artifact`, the
  `start_run` signature and the orchestrator's call of it

External effects (LLM calls, the YAML parser, git, the database driver) are
modelled as explicit outcome parameters: a Python exception is an
`Except.error` / `Option.some` carrying the exception message.  Mutable
dictionaries threaded through the workflow become a record passed
functionally; a callee that mutates `state` in place and raises is modelled
as returning the partially-updated record together with the exception.
-/

namespace PipelineOptimiser

/-! ## Constants

`app/constants.py` is imported throughout the source but is absent from the
repository snapshot; the values below are fixed by the spec's stage names,
by the tool-registry keys in `orchestrator.py` (which the plan entries must
match for `tools[tool_name]` to resolve), by the literal `"run"`, `"skip"`,
`"complete"` comments in `state.py`, and by the literal `"UNKNOWN"` /
`"MEDIUM"` defaults in `orchestrator.py`. -/

/-- Modelled from the spec: `app.constants.TOOL_VALIDATE`; the spec's base plan
names the stage `validate`, matching the registry key in `orchestrator.py`. -/
def TOOL_VALIDATE : String := "validate"

/-- Modelled from the spec: `app.constants.TOOL_ANALYSE`. -/
def TOOL_ANALYSE : String := "analyse"

/-- Modelled from the spec: `app.constants.TOOL_FIX`. -/
def TOOL_FIX : String := "fix"

/-- Modelled from the spec: `app.constants.TOOL_RISK_ASSESSMENT`. -/
def TOOL_RISK_ASSESSMENT : String := "risk_assessment"

/-- Modelled from the spec: `app.constants.TOOL_SECURITY_SCAN`. -/
def TOOL_SECURITY_SCAN : String := "security_scan"

/-- Modelled from the spec: `app.constants.TOOL_REVIEW`. -/
def TOOL_REVIEW : String := "review"

/-- Modelled from the spec: `app.constants.TOOL_RESOLVE`. -/
def TOOL_RESOLVE : String := "resolve"

/-- Modelled from the spec: `app.constants.ACTION_RUN`; `state.py` documents
`next_action` as one of `"run"`, `"skip"`, `"complete"`, and `nodes.py`
compares `next_action` against the literal `"skip"`. -/
def ACTION_RUN : String := "run"

/-- Modelled from the spec: `app.constants.ACTION_SKIP`. -/
def ACTION_SKIP : String := "skip"

/-- Modelled from the spec: `app.constants.RISK_LEVEL_HIGH`; `orchestrator.py`
initialises `risk_level` to the literal `"MEDIUM"` and `nodes.py` documents
the field as `HIGH/MEDIUM/LOW`. -/
def RISK_LEVEL_HIGH : String := "HIGH"

/-- Modelled from the spec: `app.constants.RISK_LEVEL_MEDIUM`. -/
def RISK_LEVEL_MEDIUM : String := "MEDIUM"

/-- Modelled from the spec: `app.constants.RISK_LEVEL_LOW`. -/
def RISK_LEVEL_LOW : String := "LOW"

/-- Modelled from the spec: `app.constants.WORKFLOW_TYPE_UNKNOWN`;
`orchestrator.py` initialises `workflow_type` to the literal `"UNKNOWN"`. -/
def WORKFLOW_TYPE_UNKNOWN : String := "UNKNOWN"

/-- Modelled from the spec: `app.constants.CHANGE_SCOPE_CODE`
(`classifier.py` stores it in the default profile; its value is never read
by the orchestrator loop). -/
def CHANGE_SCOPE_CODE : String := "CODE"

/-! ## Data model (`src/app/orchestrator/state.py`) -/

/-- `validation_result` dict produced by `Validator.run`
(`validator.py` lines 60-80): a `valid` flag plus an optional `reason`. -/
structure ValidationResult where
  valid : Bool
  reason : Option String
deriving DecidableEq, Repr

/-- The `post_validation_result` dict as read by `decision_node`
(`nodes.py` lines 94-95).  The only operations the source performs on it are
a truthiness test (non-empty dict) and `.get("valid", False)`, so it is
modelled by that observable content: `empty` is the empty dict (falsy),
`filled v` is a non-empty dict whose `.get("valid", False)` returns `v`. -/
inductive PostValidationResult where
  | empty : PostValidationResult
  | filled (valid : Bool) : PostValidationResult
deriving DecidableEq, Repr

/-- `PipelineState` (`state.py`).  Dict-valued fields are projected onto the
components the embedded code reads: `analysis_result` onto its
`issues_detected` list and `optimisation_result` onto its `applied_fixes`
list (both read only at `nodes.py` lines 195-196).  The `error` key is
absent from the initial state and every write to it is a non-empty message,
so it is modelled as a `String` whose value `""` means unset/falsy exactly
as `state.get("error")` is falsy.  The `critic_review`, `risk_assessment`,
`security_scan`, `review` and `resolve_result` dicts are omitted: the
embedded code never reads them (`decision_node` extracts
`critic_review.merge_confidence` into a local that is never used). -/
structure PipelineState where
  repo_url : String
  pipeline_path : String
  branch : String
  pr_create : Bool
  run_id : Int
  build_log_path : Option String
  correlation_id : String
  pipeline_yaml : String
  build_log : String
  analysis_result_issues_detected : List String
  optimised_yaml : String
  pr_url : Option String
  workflow_type : String
  risk_level : String
  plan : List String
  plan_index : Nat
  completed_tools : List String
  execution_log : List String
  next_action : String
  agent_reasoning : String
  current_tool : String
  validation_result : Option ValidationResult
  post_validation_result : PostValidationResult
  optimisation_result_applied_fixes : List String
  error : String
deriving DecidableEq, Repr

/-- The initial state built by `PipelineOrchestrator.run`
(`orchestrator.py` lines 149-171).  Keys that the orchestrator does not put
into the dict (`validation_result`, `post_validation_result`,
`optimisation_result`, `error`) start at their falsy/absent value. -/
def initial_state (repo_url pipeline_path : String) (build_log_path : Option String)
    (branch : String) (pr_create : Bool) (run_id : Int) (correlation_id : String) :
    PipelineState :=
  { repo_url := repo_url
    pipeline_path := pipeline_path
    branch := branch
    pr_create := pr_create
    run_id := run_id
    build_log_path := build_log_path
    correlation_id := correlation_id
    pipeline_yaml := ""
    build_log := ""
    analysis_result_issues_detected := []
    optimised_yaml := ""
    pr_url := none
    workflow_type := "UNKNOWN"
    risk_level := "MEDIUM"
    plan := []
    plan_index := 0
    completed_tools := []
    execution_log := []
    next_action := ""
    agent_reasoning := ""
    current_tool := ""
    validation_result := none
    post_validation_result := .empty
    optimisation_result_applied_fixes := []
    error := "" }

/-! ## String helpers: Python `in` and keyword scans -/

/-- Contiguous-sublist test on character lists. -/
def charsContain (needle : List Char) : List Char → Bool
  | [] => needle.isEmpty
  | c :: rest => needle.isPrefixOf (c :: rest) || charsContain needle rest

/-- Python's substring test `needle in hay`. -/
def pyIn (needle hay : String) : Bool :=
  charsContain needle.toList hay.toList

/-- Python's `any(keyword in s for keyword in kws)`. -/
def anyKeyword (s : String) (kws : List String) : Bool :=
  kws.any (fun kw => pyIn kw s)

/-- Python's falsy test `not s or not s.strip()` on a string: true exactly
when the string is empty or whitespace-only. -/
def pyBlank (s : String) : Bool :=
  s.toList.all Char.isWhitespace

/-! ## Classifier (`src/app/components/classifier.py`) -/

/-- `Classifier._generate_plan` (`classifier.py` lines 171-194). -/
def Classifier.generate_plan (risk_level : String) (pr_create : Bool) : List String :=
  let base_plan := [TOOL_VALIDATE, TOOL_ANALYSE, TOOL_FIX]
  let plan :=
    if risk_level = RISK_LEVEL_HIGH then
      base_plan ++ [TOOL_RISK_ASSESSMENT, TOOL_SECURITY_SCAN, TOOL_REVIEW]
    else if risk_level = RISK_LEVEL_MEDIUM then
      base_plan ++ [TOOL_SECURITY_SCAN, TOOL_REVIEW]
    else
      base_plan ++ [TOOL_REVIEW]
  if pr_create then plan ++ [TOOL_RESOLVE] else plan

/-- One entry of the parsed workflow's `jobs` mapping, projected onto what
`Classifier._calculate_risk_level` (`classifier.py` lines 293-357) reads:
the job name, `str(job.get('env', {}))`, `str(job.get('environment', ''))`,
and `str(step)` for each step. -/
structure WfJob where
  name : String
  env_str : String
  environment_str : String
  steps : List String
deriving DecidableEq, Repr

/-- The parsed workflow dict, projected onto its `jobs` mapping. -/
structure ParsedWorkflow where
  jobs : List WfJob
deriving DecidableEq, Repr

/-- The per-step accumulator body of `Classifier._calculate_risk_level`
(`classifier.py` lines 328-349). -/
def Classifier.step_risk (risk_score : Nat) (step : String) : Nat :=
  let step_str := step.toLower
  let risk_score :=
    if anyKeyword step_str ["deploy", "aws", "azure", "gcp", "kubectl"] then
      risk_score + 20
    else risk_score
  let risk_score :=
    if anyKeyword step_str ["terraform", "cloudformation", "pulumi"] then
      risk_score + 25
    else risk_score
  let risk_score :=
    if pyIn "secret" step_str || pyIn "$\x7b\x7b" step then risk_score + 10
    else risk_score
  let risk_score :=
    if anyKeyword step_str ["migrate", "database", "db", "sql"] then risk_score + 15
    else risk_score
  if anyKeyword step_str ["docker", "container", "registry"] then risk_score + 5
  else risk_score

/-- The per-job accumulator body of `Classifier._calculate_risk_level`
(`classifier.py` lines 319-349): `job_str` is the lowered concatenation of
job name, env and environment, checked for production indicators, then every
step is scanned. -/
def Classifier.job_risk (risk_score : Nat) (job : WfJob) : Nat :=
  let job_str := (job.name ++ " " ++ job.env_str ++ " " ++ job.environment_str).toLower
  let risk_score :=
    if anyKeyword job_str ["production", "prod", "deploy", "release"] then
      risk_score + 30
    else risk_score
  job.steps.foldl Classifier.step_risk risk_score

/-- `Classifier._calculate_risk_level` (`classifier.py` lines 293-357). -/
def Classifier.calculate_risk_level (workflow : ParsedWorkflow) : String :=
  let risk_score := workflow.jobs.foldl Classifier.job_risk 0
  if 50 ≤ risk_score then RISK_LEVEL_HIGH
  else if 20 ≤ risk_score then RISK_LEVEL_MEDIUM
  else RISK_LEVEL_LOW

/-! Spec-side risk score, written from the spec's words: an additive score,
+30 for production/deploy/release job context, +20 for cloud-deploy
commands, +25 for infrastructure-as-code tooling, +10 for secret-bearing
steps, +15 for database/migration steps, +5 for container/registry steps. -/

/-- Spec-side: a step's contribution to the additive risk score. -/
def specStepScore (step : String) : Nat :=
  let step_str := step.toLower
  (if anyKeyword step_str ["deploy", "aws", "azure", "gcp", "kubectl"] then 20 else 0)
  + (if anyKeyword step_str ["terraform", "cloudformation", "pulumi"] then 25 else 0)
  + (if pyIn "secret" step_str || pyIn "$\x7b\x7b" step then 10 else 0)
  + (if anyKeyword step_str ["migrate", "database", "db", "sql"] then 15 else 0)
  + (if anyKeyword step_str ["docker", "container", "registry"] then 5 else 0)

/-- Spec-side: a job's contribution — production/deploy/release context plus
the sum of its steps' contributions. -/
def specJobScore (job : WfJob) : Nat :=
  let job_str := (job.name ++ " " ++ job.env_str ++ " " ++ job.environment_str).toLower
  (if anyKeyword job_str ["production", "prod", "deploy", "release"] then 30 else 0)
  + (job.steps.map specStepScore).sum

/-- Spec-side: the additive heuristic risk score of a workflow. -/
def specRiskScore (workflow : ParsedWorkflow) : Nat :=
  (workflow.jobs.map specJobScore).sum

/-! ## Classifier profile, classification and node execution -/

/-- `ClassifierProfile` (`classifier.py` lines 39-46), projected onto the
fields `Classifier._execute` reads back (`strategy` and `characteristics`
are never read by the workflow). -/
structure ClassifierProfile where
  workflow_type : String
  risk_level : String
  change_scope : String
deriving DecidableEq, Repr

/-- `Classifier._get_default_profile` (`classifier.py` lines 565-584). -/
def Classifier.get_default_profile : ClassifierProfile :=
  { workflow_type := WORKFLOW_TYPE_UNKNOWN
    risk_level := RISK_LEVEL_MEDIUM
    change_scope := CHANGE_SCOPE_CODE }

/-- Outcome of `yaml.safe_load(pipeline_yaml)` inside `Classifier._classify`
(`classifier.py` lines 140-147). -/
inductive YamlOutcome where
  | yamlError : YamlOutcome
  | notDict : YamlOutcome
  | parsed (w : ParsedWorkflow) : YamlOutcome
deriving DecidableEq, Repr

/-- A Python exception escaping the classification of a parsed workflow,
split by whether `Classifier._execute`'s `except ClassificationError`
clause catches it. -/
inductive ClassifyExc where
  | classificationError (msg : String) : ClassifyExc
  | otherExc (msg : String) : ClassifyExc
deriving DecidableEq, Repr

/-- `Classifier._classify` (`classifier.py` lines 114-169).  The validation
and parse-failure paths (lines 134-147) are embedded; the classification of
a successfully parsed dict workflow (lines 149-169, calling
`_detect_workflow_type`, `_calculate_risk_level`, `_detect_change_scope`,
`_extract_characteristics`, `_create_strategy`) is abstracted as the
function argument `classifyParsed`, with `Except.error` modelling an
exception raised inside it. -/
def Classifier.classify
    (classifyParsed : ParsedWorkflow → Except ClassifyExc ClassifierProfile)
    (parse : String → YamlOutcome) (pipeline_yaml : String) :
    Except ClassifyExc ClassifierProfile :=
  if pyBlank pipeline_yaml then .ok Classifier.get_default_profile
  else
    match parse pipeline_yaml with
    | .yamlError => .ok Classifier.get_default_profile
    | .notDict => .ok Classifier.get_default_profile
    | .parsed w => classifyParsed w

/-- `Classifier._execute` (`classifier.py` lines 73-112): classify, then
write `workflow_type`, `risk_level`, `plan` and `plan_index` into the state;
a `ClassificationError` is caught and replaced by the default values; any
other exception propagates (`Except.error`). -/
def Classifier.execute
    (classifyParsed : ParsedWorkflow → Except ClassifyExc ClassifierProfile)
    (parse : String → YamlOutcome) (s : PipelineState) :
    Except String PipelineState :=
  match Classifier.classify classifyParsed parse s.pipeline_yaml with
  | .ok profile =>
      .ok { s with workflow_type := profile.workflow_type
                   risk_level := profile.risk_level
                   plan := Classifier.generate_plan profile.risk_level s.pr_create
                   plan_index := 0 }
  | .error (.classificationError _) =>
      .ok { s with workflow_type := WORKFLOW_TYPE_UNKNOWN
                   risk_level := RISK_LEVEL_MEDIUM
                   plan := Classifier.generate_plan RISK_LEVEL_MEDIUM s.pr_create
                   plan_index := 0 }
  | .error (.otherExc e) => .error e

/-! ## Decision component (`src/app/components/decision.py`) -/

/-- Outcome of the oracle call inside `Decision.run` (`decision.py` lines
64-77): building the context, the LLM chat completion and
`parse_json_response` either raise (`raised`, covering timeouts, connection
errors and unparsable responses) or deliver a parsed JSON object, of which
the code reads only `.get("action")` and `.get("reasoning")` (absent keys
are `none`; a non-string JSON value behaves like any string different from
`"run"` and `"skip"`). -/
inductive LLMOutcome where
  | raised (msg : String) : LLMOutcome
  | parsed (action : Option String) (reasoning : Option String) : LLMOutcome
deriving DecidableEq, Repr

/-- `Decision.run` (`decision.py` lines 49-107): returns the
`(action, reasoning)` pair.  A parsed response's missing `action` defaults
to `ACTION_RUN`; an `action` outside `run`/`skip` is replaced by
`ACTION_RUN`; any exception yields `ACTION_SKIP` with a reasoning naming
the error. -/
def Decision.run (llm : PipelineState → String → LLMOutcome)
    (state : PipelineState) (next_tool : String) : String × String :=
  match llm state next_tool with
  | .raised e => (ACTION_SKIP, "Error making decision: " ++ e)
  | .parsed action? reasoning? =>
      let action := action?.getD ACTION_RUN
      let reasoning := reasoning?.getD "No reasoning provided"
      let action :=
        if action = ACTION_RUN || action = ACTION_SKIP then action else ACTION_RUN
      (action, reasoning)

/-- `Decision._execute` (`decision.py` lines 109-132): decide about
`_current_tool` and record `next_action` / `agent_reasoning`. -/
def Decision.execute (llm : PipelineState → String → LLMOutcome)
    (s : PipelineState) : PipelineState :=
  if s.current_tool = "" then
    { s with next_action := ACTION_SKIP, agent_reasoning := "No tool specified" }
  else
    let decision := Decision.run llm s s.current_tool
    { s with next_action := decision.1, agent_reasoning := decision.2 }

/-! ## Workflow nodes (`src/app/orchestrator/nodes.py`) -/

/-- The early-exit test at `nodes.py` lines 94-95:
`post_validation_result and not post_validation_result.get("valid", False)`. -/
def postValidationFailed (s : PipelineState) : Bool :=
  match s.post_validation_result with
  | .empty => false
  | .filled valid => !valid

/-- `decision_node` (`nodes.py` lines 62-136).  The returned `Bool` is an
observation flag recording whether the decision agent was consulted
(`decision_agent._execute` called, line 129); `nodes.py` lines 105-106 read
`critic_review.merge_confidence` into a local that is never used, so they
are not part of the state transition. -/
def decision_node (llm : PipelineState → String → LLMOutcome)
    (s : PipelineState) : PipelineState × Bool :=
  if s.error ≠ "" then
    ({ s with next_action := "complete"
              agent_reasoning := "Workflow stopped due to error: " ++ s.error }, false)
  else if postValidationFailed s then
    ({ s with next_action := "complete"
              agent_reasoning := "Post-validation failed, YAML is structurally broken" },
     false)
  else if s.plan.length ≤ s.plan_index then
    ({ s with next_action := "complete"
              agent_reasoning := "All planned tools executed" }, false)
  else
    let next_tool := s.plan.getD s.plan_index ""
    (Decision.execute llm { s with current_tool := next_tool }, true)

/-- `execute_node` (`nodes.py` lines 139-212).  `toolExec t s` models
`tools[t]._execute(s)`: it returns the updated state together with
`some e` when the call raised exception `e` (in-place mutations performed
before the raise are kept, and a `KeyError` on the registry lookup behaves
like a raise with no mutation).  The `for key, value in result.items()`
copy-back makes the returned dict the new state. -/
def execute_node (toolExec : String → PipelineState → PipelineState × Option String)
    (s : PipelineState) : PipelineState :=
  let tool_name := s.current_tool
  if s.next_action = ACTION_SKIP then
    { s with execution_log := s.execution_log ++ [tool_name ++ ": skipped"]
             plan_index := s.plan_index + 1 }
  else
    match toolExec tool_name s with
    | (result, none) =>
        let s1 := result
        let s2 :=
          if tool_name ∈ s1.completed_tools then s1
          else { s1 with completed_tools := s1.completed_tools ++ [tool_name] }
        let log_entry := tool_name ++ ": completed"
        let log_entry :=
          if tool_name = "optimise" then
            log_entry ++ " (" ++ toString s2.analysis_result_issues_detected.length
              ++ " issues found, "
              ++ toString s2.optimisation_result_applied_fixes.length
              ++ " fixes applied)"
          else if tool_name = "resolve" && (s2.pr_url.getD "") ≠ "" then
            log_entry ++ " (PR: " ++ s2.pr_url.getD "" ++ ")"
          else log_entry
        { s2 with execution_log := s2.execution_log ++ [log_entry]
                  plan_index := s2.plan_index + 1 }
    | (sExc, some e) =>
        { sExc with
            execution_log := sExc.execution_log ++ [tool_name ++ ": FAILED - " ++ e]
            plan_index := sExc.plan_index + 1 }

/-- `should_continue` (`nodes.py` lines 215-232): `true` is the
`"continue"` edge back to the execute node, `false` is `"end"`. -/
def should_continue (s : PipelineState) : Bool :=
  !(s.next_action = "complete")

/-! ## The orchestrator loop (`orchestrator.py` `_build_graph`, lines 88-119)

The compiled LangGraph runs `plan` once, then alternates
`decide → (continue → execute → decide | end)`.  `loopRun` is the
decide/execute alternation, with fuel for the graph's recursion bound; it
also emits an observation trace of oracle consultations, skips and
executions, recording the `plan_index` at which each occurred. -/

/-- Observable events of one loop pass. -/
inductive LoopEvent where
  | oracle (idx : Nat) (tool : String) : LoopEvent
  | skipped (idx : Nat) (tool : String) : LoopEvent
  | executed (idx : Nat) (tool : String) : LoopEvent
deriving DecidableEq, Repr

/-- The decide/execute loop of the compiled graph, as entered after
`plan_node`: repeatedly run `decision_node`, stop when `should_continue`
routes to `end`, otherwise run `execute_node` and loop. -/
def loopRun (llm : PipelineState → String → LLMOutcome)
    (toolExec : String → PipelineState → PipelineState × Option String) :
    Nat → PipelineState → PipelineState × List LoopEvent
  | 0, s => (s, [])
  | n + 1, s =>
      let d := decision_node llm s
      let s1 := d.1
      let evs := if d.2 then [LoopEvent.oracle s.plan_index s1.current_tool] else []
      if should_continue s1 then
        let ev2 :=
          if s1.next_action = ACTION_SKIP then LoopEvent.skipped s1.plan_index s1.current_tool
          else LoopEvent.executed s1.plan_index s1.current_tool
        let rest := loopRun llm toolExec n (execute_node toolExec s1)
        (rest.1, evs ++ ev2 :: rest.2)
      else (s1, evs)

/-- Plan indices at which the decision agent was consulted. -/
def oracleIdxs (evs : List LoopEvent) : List Nat :=
  evs.filterMap fun e =>
    match e with
    | .oracle idx _ => some idx
    | _ => none

/-- The (plan index, stage name) pairs of the events that execute a stage
(the `next_action == "run"` branch of `execute_node`). -/
def execPairs (evs : List LoopEvent) : List (Nat × String) :=
  evs.filterMap fun e =>
    match e with
    | .executed idx tool => some (idx, tool)
    | _ => none

/-! ## Run Repository (`src/app/repository/pipeline_repository.py`) -/

/-- Outcome of a database call (`db.insert_artifact`, `db.create_run`, …):
success, a raised `DatabaseError`, or some other raised exception. -/
inductive DbOutcome where
  | ok : DbOutcome
  | dbError (msg : String) : DbOutcome
  | otherExc (msg : String) : DbOutcome
deriving DecidableEq, Repr

/-- `PipelineRepository.save_artifact` (`pipeline_repository.py` lines
127-145): the `db.insert_artifact` call's outcome is the argument; a
`DatabaseError` is caught and logged as a warning, anything else
propagates. -/
def PipelineRepository.save_artifact (dbOutcome : DbOutcome) : Except String Unit :=
  match dbOutcome with
  | .ok => .ok ()
  | .dbError _ => .ok ()
  | .otherExc e => .error e

/-! ## Stage base class (`src/app/components/base_service.py`) -/

/-- `BaseService._save_artifact` (`base_service.py` lines 145-193):
`artifact_key` is `self._get_artifact_key()`, `content` is
`state.get(artifact_key)` with `none` for an absent or falsy value,
`persist` is the outcome of the `db.insert_artifact` call inside
`self.repository.save_artifact`.  The body's `try` converts the content and
calls the repository; `except Exception` turns any raise into a logged
warning, so the overall call is modelled as the `Except` it leaves behind. -/
def BaseService.save_artifact_run (artifact_key : Option String)
    (content : Option String) (persist : DbOutcome) : Except String Unit :=
  match artifact_key with
  | none => .ok ()
  | some _ =>
      match content with
      | none => .ok ()
      | some _ =>
          match PipelineRepository.save_artifact persist with
          | .ok () => .ok ()
          | .error _ => .ok ()

/-- `BaseService._format_agent_name` (`base_service.py` lines 230-237) is
string cosmetics (`replace('_', ' ').title()`); the embedding keeps the
name and marks the formatting. -/
def BaseService.format_agent_name (agent_name : String) : String :=
  (agent_name.replace "_" " ").capitalize

/-- `BaseService.execute_node` (`base_service.py` lines 78-143), the step
operation of the Stage contract.  `exec` is the subclass `_execute`
(returning the updated state, plus `some e` when it raised after in-place
mutations); `contentOf` projects the post-execution state onto
`state.get(artifact_key)` for `_save_artifact`; `persist` is the database
outcome of the artifact write. -/
def BaseService.execute_node (agent_name : String)
    (exec : PipelineState → PipelineState × Option String)
    (artifact_key : Option String) (contentOf : PipelineState → Option String)
    (persist : DbOutcome) (s : PipelineState) : PipelineState :=
  if agent_name ∈ s.completed_tools then s
  else if s.error ≠ "" then s
  else
    match exec s with
    | (s1, none) =>
        if s1.error = "" then
          let s2 :=
            if agent_name ∈ s1.completed_tools then s1
            else { s1 with completed_tools := s1.completed_tools ++ [agent_name] }
          match BaseService.save_artifact_run artifact_key (contentOf s2) persist with
          | .ok () => s2
          | .error e =>
              { s2 with error := BaseService.format_agent_name agent_name
                                   ++ " failed: " ++ e }
        else s1
    | (s1, some e) =>
        { s1 with error := BaseService.format_agent_name agent_name
                             ++ " failed: " ++ e }

/-! ## Validator (`src/app/components/validator.py`) -/

/-- A top-level key of the YAML document parsed by `Validator._parse_yaml`,
as seen by `Validator._normalize_keys` (`validator.py` lines 170-190):
the YAML parser may turn `on` into boolean `True`. -/
inductive YamlKey where
  | boolTrue : YamlKey
  | boolFalse : YamlKey
  | str (s : String) : YamlKey
deriving DecidableEq, Repr

/-- `Validator._normalize_keys` (`validator.py` lines 170-190). -/
def Validator.normalize_key (k : YamlKey) : String :=
  match k with
  | .boolTrue => "on"
  | .boolFalse => "off"
  | .str s => s

/-- `Validator.REQUIRED_KEYS` (`validator.py` line 26). -/
def Validator.REQUIRED_KEYS : List String := ["on", "jobs"]

/-- `Validator.run` (`validator.py` lines 33-80).  `parse` is the outcome of
`Validator._parse_yaml` on the preprocessed YAML (the top-level keys of the
first non-empty dict document, or `none` when parsing fails or no dict
document exists); `_preprocess_yaml` strips whitespace/BOM, modelled by
`String.trim`.  An `Except.error` is the raised `ValidationError` for
empty input. -/
def Validator.run (parse : String → Option (List YamlKey))
    (pipeline_yaml : String) : Except String ValidationResult :=
  if pyBlank pipeline_yaml then
    .error "pipeline_yaml must be a non-empty string"
  else
    let preprocessed := pipeline_yaml.trim
    match parse preprocessed with
    | none => .ok { valid := false, reason := some "YAML parsing failed or empty document" }
    | some keys =>
        let normalized := keys.map Validator.normalize_key
        let missing := Validator.REQUIRED_KEYS.filter (fun k => !normalized.contains k)
        if missing ≠ [] then
          .ok { valid := false
                reason := some ("Missing required keys: " ++ String.intercalate ", " missing) }
        else .ok { valid := true, reason := none }

/-- `Validator._execute` (`validator.py` lines 82-115): run the validation,
catch `ValidationError`/any exception into an invalid result, store it, and
set `state.error` to the reason when the result is invalid. -/
def Validator.execute (parse : String → Option (List YamlKey))
    (s : PipelineState) : PipelineState :=
  let result :=
    match Validator.run parse s.pipeline_yaml with
    | .ok r => r
    | .error e => { valid := false, reason := some e }
  let s := { s with validation_result := some result }
  if !result.valid then { s with error := result.reason.getD "" }
  else s

/-! ## `PipelineOrchestrator.run` (`src/app/orchestrator/orchestrator.py`)

`PipelineRepository.start_run` declares `repo_url` and `pipeline_path` as
required parameters and `branch`, `commit_sha`, `trigger_source`,
`correlation_id`, `workflow_type`, `risk_level` as optional ones
(`pipeline_repository.py` lines 25-35).  The keyword call at
`orchestrator.py` lines 136-141 passes `repo_url`, `branch`,
`trigger_source` and `correlation_id` only.  Python's call binding is
embedded explicitly so the call site is checked against the signature. -/

/-- The keyword arguments supplied to a `start_run` call: `none` means the
keyword was not passed. -/
structure StartRunKwargs where
  repo_url : Option String := none
  pipeline_path : Option String := none
  branch : Option String := none
  commit_sha : Option (Option String) := none
  trigger_source : Option String := none
  correlation_id : Option (Option String) := none
  workflow_type : Option (Option String) := none
  risk_level : Option (Option String) := none
deriving DecidableEq, Repr

/-- The bound parameters of `PipelineRepository.start_run`
(`pipeline_repository.py` lines 25-35), after defaulting. -/
structure StartRunArgs where
  repo_url : String
  pipeline_path : String
  branch : String
  commit_sha : Option String
  trigger_source : String
  correlation_id : Option String
  workflow_type : Option String
  risk_level : Option String
deriving DecidableEq, Repr

/-- Python call binding for `PipelineRepository.start_run`: each required
parameter must be bound or the call raises `TypeError` naming the missing
argument; optional parameters take their declared defaults. -/
def start_run_bind (kw : StartRunKwargs) : Except String StartRunArgs :=
  match kw.repo_url, kw.pipeline_path with
  | some r, some p =>
      .ok { repo_url := r
            pipeline_path := p
            branch := kw.branch.getD "main"
            commit_sha := kw.commit_sha.getD none
            trigger_source := kw.trigger_source.getD "API"
            correlation_id := kw.correlation_id.getD none
            workflow_type := kw.workflow_type.getD none
            risk_level := kw.risk_level.getD none }
  | none, _ =>
      .error "TypeError: start_run() missing 1 required positional argument: repo_url"
  | some _, none =>
      .error "TypeError: start_run() missing 1 required positional argument: pipeline_path"

/-- The keyword arguments actually written at the `start_run` call site,
`orchestrator.py` lines 136-141. -/
def orchestrator_start_run_kwargs (repo_url branch correlation_id : String) :
    StartRunKwargs :=
  { repo_url := some repo_url
    branch := some branch
    trigger_source := some "API"
    correlation_id := some (some correlation_id) }

/-- The structured result `PipelineOrchestrator.run` hands back to the
caller (`orchestrator.py` lines 187-195 and 206-210): the success record or
the failure record. -/
inductive RunResult where
  | success (correlation_id workflow_type risk_level : String)
      (completed_tools : List String) (pr_url : Option String)
      (duration : Nat) : RunResult
  | failure (correlation_id : String) (error : String) : RunResult
deriving DecidableEq, Repr

/-- The `except` block of `PipelineOrchestrator.run` (`orchestrator.py`
lines 197-210): `fail_run` re-raises a `DatabaseError` from
`update_run_status` (`pipeline_repository.py` lines 113-125), in which case
the raise escapes `run` itself; otherwise the failure record is returned. -/
def run_except_branch (failRunOutcome : DbOutcome) (correlation_id e : String) :
    Except String RunResult :=
  match failRunOutcome with
  | .ok => .ok (.failure correlation_id e)
  | .dbError e2 => .error e2
  | .otherExc e2 => .error e2

/-- `PipelineOrchestrator.run` (`orchestrator.py` lines 121-210).
Environment effects are parameters: `dbStart` is `get_or_create_repo` +
`create_run` behind `start_run` (raising on `.error`), `invoke` is
`self.graph.invoke`, `completeRun` and `failRun` are the outcomes of the
lifecycle writes, `duration` stands for the measured wall-clock seconds,
`correlation_id` for the generated id.  `start_run` is called before the
`try`, so an exception there — including the `TypeError` from the call
binding — propagates to the caller. -/
def PipelineOrchestrator.run
    (dbStart : StartRunArgs → Except String Int)
    (invoke : PipelineState → Except String PipelineState)
    (completeRun : DbOutcome) (failRun : DbOutcome)
    (duration : Nat) (correlation_id : String)
    (repo_url pipeline_path : String) (build_log_path : Option String)
    (branch : String) (pr_create : Bool) : Except String RunResult :=
  match start_run_bind (orchestrator_start_run_kwargs repo_url branch correlation_id) with
  | .error e => .error e
  | .ok args =>
      match dbStart args with
      | .error e => .error e
      | .ok run_id =>
          let s0 := initial_state repo_url pipeline_path build_log_path branch
                      pr_create run_id correlation_id
          match invoke s0 with
          | .ok final_state =>
              match completeRun with
              | .ok =>
                  .ok (.success correlation_id final_state.workflow_type
                        final_state.risk_level final_state.completed_tools
                        final_state.pr_url duration)
              | .dbError e => run_except_branch failRun correlation_id e
              | .otherExc e => run_except_branch failRun correlation_id e
          | .error e => run_except_branch failRun correlation_id e

/-! ## Concrete fixtures used by witnesses and counterexamples -/

/-- A concrete freshly-initialised state (as `PipelineOrchestrator.run`
builds it). -/
def sample_state : PipelineState :=
  initial_state "https://github.com/acme/app" ".github/workflows/ci.yml" none
    "main" false 1 "cid-1"

/-- An oracle stub that always answers `run`. -/
def llm_run : PipelineState → String → LLMOutcome :=
  fun _ _ => .parsed (some "run") (some "ok")

/-- An oracle stub whose call raises (timeout). -/
def llm_raised : PipelineState → String → LLMOutcome :=
  fun _ _ => .raised "Request timed out"

/-- An oracle stub that parses but carries an invalid `action`. -/
def llm_invalid_action : PipelineState → String → LLMOutcome :=
  fun _ _ => .parsed (some "maybe") (some "unclear")

/-- A stage stub whose `_execute` returns the state unchanged. -/
def tool_id : String → PipelineState → PipelineState × Option String :=
  fun _ s => (s, none)

/-- A single stage's `_execute` stub returning the state unchanged
(the `BaseService`-level shape of `tool_id`). -/
def stage_exec_id : PipelineState → PipelineState × Option String :=
  fun s => (s, none)

/-- A stage stub whose `_execute` raises without mutating the state
(e.g. the Ingestor's `RuntimeError` on an inaccessible repository). -/
def tool_raise : String → PipelineState → PipelineState × Option String :=
  fun _ s => (s, some "boom")

/-! ## Helper lemmas -/

/-- Every plan produced by `Classifier._generate_plan` lists pairwise
distinct stage names. -/
theorem generate_plan_nodup (risk_level : String) (pr_create : Bool) :
    (Classifier.generate_plan risk_level pr_create).Nodup := by
  unfold Classifier.generate_plan
  by_cases h1 : risk_level = RISK_LEVEL_HIGH <;>
    by_cases h2 : risk_level = RISK_LEVEL_MEDIUM <;>
    cases pr_create <;> simp [h1, h2] <;> decide

/-- The plan generated for medium risk contains the validate, analyse and
review stages and is non-empty, for either change-request flag. -/
theorem generate_plan_medium_mem (pr_create : Bool) :
    TOOL_VALIDATE ∈ Classifier.generate_plan RISK_LEVEL_MEDIUM pr_create ∧
    TOOL_ANALYSE ∈ Classifier.generate_plan RISK_LEVEL_MEDIUM pr_create ∧
    TOOL_REVIEW ∈ Classifier.generate_plan RISK_LEVEL_MEDIUM pr_create ∧
    Classifier.generate_plan RISK_LEVEL_MEDIUM pr_create ≠ [] := by
  cases pr_create <;> refine ⟨?_, ?_, ?_, ?_⟩ <;> decide

/-- `BaseService._save_artifact` never lets an exception escape: every
combination of artifact key, content and persistence outcome ends in a
logged warning at worst. -/
theorem save_artifact_run_total (artifact_key : Option String)
    (content : Option String) (persist : DbOutcome) :
    BaseService.save_artifact_run artifact_key content persist = Except.ok () := by
  cases artifact_key <;> cases content <;> cases persist <;> rfl

/-- `Decision._execute` writes only `next_action` and `agent_reasoning`:
the plan cursor, plan, error sentinel and current tool pass through. -/
theorem decision_execute_preserves (llm : PipelineState → String → LLMOutcome)
    (s : PipelineState) :
    (Decision.execute llm s).plan_index = s.plan_index ∧
    (Decision.execute llm s).plan = s.plan ∧
    (Decision.execute llm s).error = s.error ∧
    (Decision.execute llm s).current_tool = s.current_tool := by
  unfold Decision.execute
  split <;> exact ⟨rfl, rfl, rfl, rfl⟩

/-- `Decision.run` only ever answers `run` or `skip`. -/
theorem decision_run_action (llm : PipelineState → String → LLMOutcome)
    (s : PipelineState) (tool : String) :
    (Decision.run llm s tool).1 = ACTION_RUN ∨
    (Decision.run llm s tool).1 = ACTION_SKIP := by
  unfold Decision.run
  cases h : llm s tool with
  | raised e => exact Or.inr rfl
  | parsed a? r? =>
      by_cases h1 : a?.getD ACTION_RUN = ACTION_RUN
      · left; simp [h1]
      · by_cases h2 : a?.getD ACTION_RUN = ACTION_SKIP
        · right; simp [h1, h2]
        · left; simp [h1, h2]

/-- `Decision._execute` only ever records `run` or `skip` as the next
action. -/
theorem decision_execute_action (llm : PipelineState → String → LLMOutcome)
    (s : PipelineState) :
    (Decision.execute llm s).next_action = ACTION_RUN ∨
    (Decision.execute llm s).next_action = ACTION_SKIP := by
  unfold Decision.execute
  split
  · exact Or.inr rfl
  · exact decision_run_action llm s s.current_tool

/-- `decision_node` never moves the plan cursor or rewrites the plan. -/
theorem decision_node_preserves (llm : PipelineState → String → LLMOutcome)
    (s : PipelineState) :
    (decision_node llm s).1.plan_index = s.plan_index ∧
    (decision_node llm s).1.plan = s.plan := by
  unfold decision_node
  split
  · exact ⟨rfl, rfl⟩
  · split
    · exact ⟨rfl, rfl⟩
    · split
      · exact ⟨rfl, rfl⟩
      · exact ⟨(decision_execute_preserves llm _).1, (decision_execute_preserves llm _).2.1⟩

/-- A DECIDING pass emits `complete` exactly when the error sentinel is
set, the recorded post-validation result failed, or the plan is exhausted. -/
theorem decision_node_complete_iff (llm : PipelineState → String → LLMOutcome)
    (s : PipelineState) :
    (decision_node llm s).1.next_action = "complete" ↔
      (s.error ≠ "" ∨ postValidationFailed s = true ∨ s.plan.length ≤ s.plan_index) := by
  unfold decision_node
  by_cases h1 : s.error ≠ ""
  · simp [h1]
  · by_cases h2 : postValidationFailed s
    · simp [h1, h2]
    · by_cases h3 : s.plan.length ≤ s.plan_index
      · simp [h1, h2, h3]
      · simp only [h1, h2, h3, if_false, ite_false, Bool.false_eq_true,
          iff_false, or_false, false_or]
        show ¬(Decision.execute llm
            { s with current_tool := s.plan.getD s.plan_index "" }).next_action = "complete"
        rcases decision_execute_action llm
            { s with current_tool := s.plan.getD s.plan_index "" } with ha | ha <;>
          rw [ha] <;> decide

/-- A DECIDING pass that does not complete records the current plan entry
as the current tool and consults the decision agent. -/
theorem decision_node_sets_tool (llm : PipelineState → String → LLMOutcome)
    (s : PipelineState) (h1 : s.error = "") (h2 : postValidationFailed s = false)
    (h3 : s.plan_index < s.plan.length) :
    (decision_node llm s).1.current_tool = s.plan.getD s.plan_index "" ∧
    (decision_node llm s).2 = true := by
  unfold decision_node
  have h1x : ¬s.error ≠ "" := by simp [h1]
  have h3x : ¬s.plan.length ≤ s.plan_index := by omega
  simp only [h1x, h2, h3x, if_false, ite_false, Bool.false_eq_true]
  exact ⟨(decision_execute_preserves llm _).2.2.2, trivial⟩

/-- While `should_continue` routes back to the execute node, the preceding
DECIDING pass happened on a live slot: no error, no failed post-validation,
a plan entry left, the current tool set to it, and the agent consulted. -/
theorem should_continue_decision (llm : PipelineState → String → LLMOutcome)
    (s : PipelineState) (hc : should_continue (decision_node llm s).1 = true) :
    s.error = "" ∧ postValidationFailed s = false ∧ s.plan_index < s.plan.length ∧
    (decision_node llm s).1.current_tool = s.plan.getD s.plan_index "" ∧
    (decision_node llm s).2 = true := by
  have hnc : ¬(decision_node llm s).1.next_action = "complete" := by
    simpa [should_continue] using hc
  rw [decision_node_complete_iff llm s] at hnc
  push_neg at hnc
  obtain ⟨he, hpv, hlen⟩ := hnc
  have h1 : s.error = "" := he
  have h2 : postValidationFailed s = false := by
    simpa using hpv
  have h3 : s.plan_index < s.plan.length := by omega
  obtain ⟨ht, hcons⟩ := decision_node_sets_tool llm s h1 h2 h3
  exact ⟨h1, h2, h3, ht, hcons⟩

/-- `execute_node` advances the plan cursor by exactly one, for every stage
whose `_execute` leaves `plan_index` alone (no registry stage writes it). -/
theorem execute_node_plan_index
    (toolExec : String → PipelineState → PipelineState × Option String)
    (hframe : ∀ t s, (toolExec t s).1.plan_index = s.plan_index)
    (s : PipelineState) :
    (execute_node toolExec s).plan_index = s.plan_index + 1 := by
  unfold execute_node
  split
  · rfl
  · cases h : toolExec s.current_tool s with
    | mk s1 exc =>
        have h1 : s1.plan_index = s.plan_index := by
          have h2 := hframe s.current_tool s
          rw [h] at h2
          exact h2
        cases exc with
        | none =>
            by_cases hm : s.current_tool ∈ s1.completed_tools <;> simp [h, hm, h1]
        | some e => simp [h, h1]

/-- `execute_node` never rewrites the plan, for every stage whose
`_execute` leaves `plan` alone (no registry stage writes it). -/
theorem execute_node_plan
    (toolExec : String → PipelineState → PipelineState × Option String)
    (hplan : ∀ t s, (toolExec t s).1.plan = s.plan)
    (s : PipelineState) :
    (execute_node toolExec s).plan = s.plan := by
  unfold execute_node
  split
  · rfl
  · cases h : toolExec s.current_tool s with
    | mk s1 exc =>
        have h1 : s1.plan = s.plan := by
          have h2 := hplan s.current_tool s
          rw [h] at h2
          exact h2
        cases exc with
        | none =>
            by_cases hm : s.current_tool ∈ s1.completed_tools <;> simp [h, hm, h1]
        | some e => simp [h, h1]

/-- Unfolding equation of `loopRun` at positive fuel. -/
theorem loopRun_succ (llm : PipelineState → String → LLMOutcome)
    (toolExec : String → PipelineState → PipelineState × Option String)
    (n : Nat) (s : PipelineState) :
    loopRun llm toolExec (n + 1) s =
      let d := decision_node llm s
      let evs := if d.2 then [LoopEvent.oracle s.plan_index d.1.current_tool] else []
      if should_continue d.1 then
        let ev2 :=
          if d.1.next_action = ACTION_SKIP then
            LoopEvent.skipped d.1.plan_index d.1.current_tool
          else LoopEvent.executed d.1.plan_index d.1.current_tool
        let rest := loopRun llm toolExec n (execute_node toolExec d.1)
        (rest.1, evs ++ ev2 :: rest.2)
      else (d.1, evs) := rfl

/-- Every oracle consultation in a loop trace happens at a plan index no
smaller than the starting one. -/
theorem oracleIdxs_lb (llm : PipelineState → String → LLMOutcome)
    (toolExec : String → PipelineState → PipelineState × Option String)
    (hframe : ∀ t s, (toolExec t s).1.plan_index = s.plan_index) :
    ∀ n s i, i ∈ oracleIdxs (loopRun llm toolExec n s).2 → s.plan_index ≤ i := by
  intro n
  induction n with
  | zero => intro s i hi; simp [loopRun, oracleIdxs] at hi
  | succ n ih =>
      intro s i hi
      rw [loopRun_succ] at hi
      by_cases hc : should_continue (decision_node llm s).1 <;>
        by_cases hdd : (decision_node llm s).2 = true <;>
        by_cases hsk : (decision_node llm s).1.next_action = ACTION_SKIP <;>
        simp only [hc, hdd, hsk, if_true, if_false, Bool.false_eq_true,
          ite_true, ite_false, oracleIdxs, List.filterMap_append,
          List.filterMap_cons, List.filterMap_nil, List.mem_append,
          List.nil_append] at hi <;>
        try simp only [List.mem_singleton, List.mem_cons,
          List.not_mem_nil, or_false, false_or] at hi
      case pos =>
        rcases hi with hi | hi
        · exact hi ▸ Nat.le_refl _
        · have hlb := ih (execute_node toolExec (decision_node llm s).1) i
            (by simpa [oracleIdxs] using hi)
          have hpi := execute_node_plan_index toolExec hframe (decision_node llm s).1
          have hdp := (decision_node_preserves llm s).1
          omega
      case neg =>
        rcases hi with hi | hi
        · exact hi ▸ Nat.le_refl _
        · have hlb := ih (execute_node toolExec (decision_node llm s).1) i
            (by simpa [oracleIdxs] using hi)
          have hpi := execute_node_plan_index toolExec hframe (decision_node llm s).1
          have hdp := (decision_node_preserves llm s).1
          omega
      all_goals first
        | (rcases hi with hi | hi
           · exact hi ▸ Nat.le_refl _
           · have hlb := ih (execute_node toolExec (decision_node llm s).1) i
               (by simpa [oracleIdxs] using hi)
             have hpi := execute_node_plan_index toolExec hframe (decision_node llm s).1
             have hdp := (decision_node_preserves llm s).1
             omega)
        | (have hlb := ih (execute_node toolExec (decision_node llm s).1) i
             (by simpa [oracleIdxs] using hi)
           have hpi := execute_node_plan_index toolExec hframe (decision_node llm s).1
           have hdp := (decision_node_preserves llm s).1
           omega)
        | (exact hi ▸ Nat.le_refl _)
        | exact absurd hi (by simp)

/-- In any loop trace the oracle is consulted at most once per plan index. -/
theorem oracleIdxs_count_le_one (llm : PipelineState → String → LLMOutcome)
    (toolExec : String → PipelineState → PipelineState × Option String)
    (hframe : ∀ t s, (toolExec t s).1.plan_index = s.plan_index) :
    ∀ n s i, (oracleIdxs (loopRun llm toolExec n s).2).count i ≤ 1 := by
  intro n
  induction n with
  | zero => intro s i; simp [loopRun, oracleIdxs]
  | succ n ih =>
      intro s i
      rw [loopRun_succ]
      have hrest0 : i = s.plan_index →
          (oracleIdxs (loopRun llm toolExec n
            (execute_node toolExec (decision_node llm s).1)).2).count i = 0 := by
        intro hie
        rw [List.count_eq_zero]
        intro hmem
        have hlb := oracleIdxs_lb llm toolExec hframe n
          (execute_node toolExec (decision_node llm s).1) i hmem
        have hpi := execute_node_plan_index toolExec hframe (decision_node llm s).1
        have hdp := (decision_node_preserves llm s).1
        omega
      have hcrest := ih (execute_node toolExec (decision_node llm s).1) i
      simp only [oracleIdxs] at hcrest
      by_cases hc : should_continue (decision_node llm s).1 <;>
        by_cases hdd : (decision_node llm s).2 = true <;>
        by_cases hsk : (decision_node llm s).1.next_action = ACTION_SKIP <;>
        simp only [hc, hdd, hsk, if_true, if_false, Bool.false_eq_true,
          ite_true, ite_false, oracleIdxs, List.filterMap_append,
          List.filterMap_cons, List.filterMap_nil, List.count_append,
          List.nil_append, List.count_cons, List.count_nil]
      all_goals
        try simp only [beq_iff_eq]
        first
          | exact hcrest
          | (by_cases hie : s.plan_index = i
             · have h0 := hrest0 hie.symm
               simp only [oracleIdxs] at h0
               try rw [if_pos hie]
               try rw [if_pos hie.symm]
               all_goals omega
             · try rw [if_neg hie]
               try rw [if_neg (fun hx => hie hx.symm)]
               all_goals omega)

/-- Stage-execution events of a loop trace, characterised and duplicate-free:
whenever the plan has no duplicate names and the stages leave `plan` and
`plan_index` alone (as every registry stage does), every executed pair lies
at a live plan slot at or after the start, carries that slot's name, and no
stage name is executed twice. -/
theorem execPairs_nodup_spec (llm : PipelineState → String → LLMOutcome)
    (toolExec : String → PipelineState → PipelineState × Option String)
    (hpi : ∀ t s, (toolExec t s).1.plan_index = s.plan_index)
    (hplan : ∀ t s, (toolExec t s).1.plan = s.plan) :
    ∀ n s, s.plan.Nodup →
      (∀ p ∈ execPairs (loopRun llm toolExec n s).2,
        s.plan_index ≤ p.1 ∧ p.1 < s.plan.length ∧ p.2 = s.plan.getD p.1 "") ∧
      ((execPairs (loopRun llm toolExec n s).2).map Prod.snd).Nodup := by
  intro n
  induction n with
  | zero =>
      intro s hnd
      exact ⟨by simp [loopRun, execPairs], by simp [loopRun, execPairs]⟩
  | succ n ih =>
      intro s hnd
      rw [loopRun_succ]
      by_cases hc : should_continue (decision_node llm s).1
      case neg =>
        by_cases hdd : (decision_node llm s).2 = true <;>
          simp [hc, hdd, execPairs]
      case pos =>
        obtain ⟨h1, h2, h3, htool, hcons⟩ := should_continue_decision llm s hc
        have hplan1 : (decision_node llm s).1.plan = s.plan :=
          (decision_node_preserves llm s).2
        have hpi1 : (decision_node llm s).1.plan_index = s.plan_index :=
          (decision_node_preserves llm s).1
        have hplan2 : (execute_node toolExec (decision_node llm s).1).plan = s.plan := by
          rw [execute_node_plan toolExec hplan _, hplan1]
        have hpi2 : (execute_node toolExec (decision_node llm s).1).plan_index =
            s.plan_index + 1 := by
          rw [execute_node_plan_index toolExec hpi _, hpi1]
        have hnd2 : (execute_node toolExec (decision_node llm s).1).plan.Nodup := by
          rw [hplan2]
          exact hnd
        obtain ⟨ihspec, ihnd⟩ := ih (execute_node toolExec (decision_node llm s).1) hnd2
        rw [hplan2] at ihspec
        rw [hpi2] at ihspec
        by_cases hsk : (decision_node llm s).1.next_action = ACTION_SKIP
        · simp only [hc, hcons, hsk, if_true, ite_true, List.cons_append,
            List.nil_append, execPairs, List.filterMap_cons]
          refine ⟨?_, ihnd⟩
          intro p hp
          obtain ⟨hlb, hlt, htl⟩ := ihspec p hp
          exact ⟨by omega, hlt, htl⟩
        · simp only [hc, hcons, hsk, if_true, ite_true, if_false, ite_false,
            List.cons_append, List.nil_append, execPairs, List.filterMap_cons]
          constructor
          · intro p hp
            rcases List.mem_cons.mp hp with hph | hpt
            · subst hph
              refine ⟨?_, ?_, ?_⟩
              · rw [hpi1]
              · rw [hpi1]
                exact h3
              · rw [hpi1, htool]
            · obtain ⟨hlb, hlt, htl⟩ := ihspec p hpt
              exact ⟨by omega, hlt, htl⟩
          · rw [List.map_cons, List.nodup_cons]
            refine ⟨?_, ihnd⟩
            intro hmem
            rw [List.mem_map] at hmem
            obtain ⟨q, hq, hqe⟩ := hmem
            obtain ⟨hlb, hlt, htl⟩ := ihspec q hq
            rw [htl] at hqe
            have hhead : (decision_node llm s).1.current_tool =
                s.plan.getD s.plan_index "" := htool
            rw [hpi1, hhead] at hqe
            rw [List.getD_eq_getElem s.plan "" hlt,
              List.getD_eq_getElem s.plan "" h3] at hqe
            have := (hnd.getElem_inj_iff).mp hqe
            omega

/-! ## Claim theorems -/

/-- C7: for every risk tier and change-request flag, the generated plan is
the base sequence `[validate, analyse, fix]` extended by tier — high appends
`[risk_assessment, security_scan, review]`, medium appends
`[security_scan, review]`, low appends `[review]` — with `resolve` appended
exactly when a change request was requested. -/
theorem c7_generate_plan_by_tier (pr_create : Bool) :
    Classifier.generate_plan RISK_LEVEL_HIGH pr_create =
      ["validate", "analyse", "fix"] ++ ["risk_assessment", "security_scan", "review"]
        ++ (if pr_create then ["resolve"] else []) ∧
    Classifier.generate_plan RISK_LEVEL_MEDIUM pr_create =
      ["validate", "analyse", "fix"] ++ ["security_scan", "review"]
        ++ (if pr_create then ["resolve"] else []) ∧
    Classifier.generate_plan RISK_LEVEL_LOW pr_create =
      ["validate", "analyse", "fix"] ++ ["review"]
        ++ (if pr_create then ["resolve"] else []) := by
  cases pr_create <;> exact ⟨rfl, rfl, rfl⟩

/-- C2: every invocation of `PipelineOrchestrator.run` raises — the
`start_run` call at `orchestrator.py` lines 136-141 omits the required
`pipeline_path` parameter of `PipelineRepository.start_run`, so the call
binding fails with a `TypeError` before the `try` block, and the caller
receives an uncaught exception instead of a structured result. -/
theorem c2_run_always_raises_type_error
    (dbStart : StartRunArgs → Except String Int)
    (invoke : PipelineState → Except String PipelineState)
    (completeRun failRun : DbOutcome) (duration : Nat)
    (correlation_id repo_url pipeline_path : String)
    (build_log_path : Option String) (branch : String) (pr_create : Bool) :
    PipelineOrchestrator.run dbStart invoke completeRun failRun duration
        correlation_id repo_url pipeline_path build_log_path branch pr_create =
      .error "TypeError: start_run() missing 1 required positional argument: pipeline_path" :=
  rfl

/-- C4 counterexample: an oracle response that parses but carries the
invalid action `"maybe"` is recorded as `run`, not `skip` — the claim that
every malformed/invalid response defaults to `skip` is false. -/
theorem c4_invalid_action_defaults_to_run :
    Decision.run llm_invalid_action sample_state "fix" = (ACTION_RUN, "unclear") ∧
    ACTION_RUN ≠ ACTION_SKIP :=
  ⟨rfl, by decide⟩

/-- C4 amended: when the oracle call raises (exception, timeout, or a
response that fails JSON parsing) the recorded decision is `skip` with a
reasoning naming the failure; a response that parses successfully but has a
missing or invalid `action` field instead defaults to `run` with its
reasoning. -/
theorem c4_oracle_failure_defaults (llm : PipelineState → String → LLMOutcome)
    (s : PipelineState) (tool e a r : String) :
    (llm s tool = .raised e →
      Decision.run llm s tool = (ACTION_SKIP, "Error making decision: " ++ e)) ∧
    (llm s tool = .parsed none (some r) →
      Decision.run llm s tool = (ACTION_RUN, r)) ∧
    (llm s tool = .parsed (some a) (some r) → a ≠ ACTION_RUN → a ≠ ACTION_SKIP →
      Decision.run llm s tool = (ACTION_RUN, r)) := by
  refine ⟨?_, ?_, ?_⟩
  · intro h; simp [Decision.run, h]
  · intro h; simp [Decision.run, h]
  · intro h ha hs; simp [Decision.run, h, ha, hs]

/-- C4 witness: a concrete timed-out oracle call is recorded as `skip`. -/
theorem c4_oracle_failure_defaults_witness :
    Decision.run llm_raised sample_state "fix" =
      (ACTION_SKIP, "Error making decision: Request timed out") :=
  (c4_oracle_failure_defaults llm_raised sample_state "fix" "Request timed out"
    "x" "y").1 rfl

/-- C5: the step operation `BaseService.execute_node` returns the state
unmodified — for any stage behaviour, artifact configuration and
persistence outcome — whenever the stage's name is already in
`completed_tools`; every generated plan lists pairwise distinct stage
names; and in any run of the orchestrator loop over a duplicate-free plan
(with stages that leave `plan` and `plan_index` alone, as all registry
stages do) no stage name is ever executed twice. -/
theorem c5_step_idempotent_reentry (agent_name : String)
    (exec : PipelineState → PipelineState × Option String)
    (artifact_key : Option String) (contentOf : PipelineState → Option String)
    (persist : DbOutcome) (s : PipelineState)
    (h : agent_name ∈ s.completed_tools)
    (llm : PipelineState → String → LLMOutcome)
    (toolExec : String → PipelineState → PipelineState × Option String)
    (hpi : ∀ t s2, (toolExec t s2).1.plan_index = s2.plan_index)
    (hplan : ∀ t s2, (toolExec t s2).1.plan = s2.plan) :
    BaseService.execute_node agent_name exec artifact_key contentOf persist s = s ∧
    (∀ risk_level pr_create, (Classifier.generate_plan risk_level pr_create).Nodup) ∧
    (∀ n s2, s2.plan.Nodup →
      ((execPairs (loopRun llm toolExec n s2).2).map Prod.snd).Nodup) := by
  refine ⟨?_, fun risk_level pr_create => generate_plan_nodup risk_level pr_create,
    fun n s2 hnd => (execPairs_nodup_spec llm toolExec hpi hplan n s2 hnd).2⟩
  unfold BaseService.execute_node
  simp [h]

/-- C5 witness: a concrete state that already completed `validate` passes
through the step operation unchanged. -/
theorem c5_step_idempotent_reentry_witness :
    BaseService.execute_node "validate" stage_exec_id none (fun _ => none) .ok
        { sample_state with completed_tools := ["validate"] } =
      { sample_state with completed_tools := ["validate"] } :=
  (c5_step_idempotent_reentry "validate" stage_exec_id none (fun _ => none) .ok
    { sample_state with completed_tools := ["validate"] } (by decide)
    llm_run tool_id (fun _ _ => rfl) (fun _ _ => rfl)).1

/-- C10: artifact persistence is strictly best-effort — the repository's
`save_artifact` swallows a `DatabaseError`, `BaseService._save_artifact`
never lets any persistence failure escape, and the state returned by the
step operation (its `error` field included) is identical for every
persistence outcome. -/
theorem c10_artifact_persistence_best_effort :
    (∀ e, PipelineRepository.save_artifact .ok = Except.ok () ∧
          PipelineRepository.save_artifact (.dbError e) = Except.ok ()) ∧
    (∀ artifact_key content persist,
      BaseService.save_artifact_run artifact_key content persist = Except.ok ()) ∧
    (∀ agent_name exec artifact_key contentOf persist1 persist2 s,
      BaseService.execute_node agent_name exec artifact_key contentOf persist1 s =
        BaseService.execute_node agent_name exec artifact_key contentOf persist2 s) := by
  refine ⟨fun e => ⟨rfl, rfl⟩, save_artifact_run_total, ?_⟩
  intro agent_name exec artifact_key contentOf persist1 persist2 s
  unfold BaseService.execute_node
  simp only [save_artifact_run_total]

/-- C9: for every empty or unparsable pipeline input the Classifier raises
nothing: it writes `workflowType = UNKNOWN`, `riskLevel = MEDIUM` and the
default medium-risk plan — non-empty and containing validate, analyse and
review — into the state, so the run proceeds with a plan to execute. -/
theorem c9_classifier_default_profile
    (classifyParsed : ParsedWorkflow → Except ClassifyExc ClassifierProfile)
    (parse : String → YamlOutcome) (s : PipelineState)
    (h : pyBlank s.pipeline_yaml = true ∨ parse s.pipeline_yaml = .yamlError ∨
         parse s.pipeline_yaml = .notDict) :
    ∃ s2, Classifier.execute classifyParsed parse s = .ok s2 ∧
      s2.workflow_type = WORKFLOW_TYPE_UNKNOWN ∧
      s2.risk_level = RISK_LEVEL_MEDIUM ∧
      s2.plan = Classifier.generate_plan RISK_LEVEL_MEDIUM s.pr_create ∧
      TOOL_VALIDATE ∈ s2.plan ∧ TOOL_ANALYSE ∈ s2.plan ∧ TOOL_REVIEW ∈ s2.plan ∧
      s2.plan ≠ [] := by
  have hmem := generate_plan_medium_mem s.pr_create
  have hcl : Classifier.classify classifyParsed parse s.pipeline_yaml =
      .ok Classifier.get_default_profile := by
    unfold Classifier.classify
    rcases h with h | h | h
    · simp [h]
    · by_cases ht : pyBlank s.pipeline_yaml <;> simp [ht, h]
    · by_cases ht : pyBlank s.pipeline_yaml <;> simp [ht, h]
  have hex : Classifier.execute classifyParsed parse s =
      .ok { s with workflow_type := WORKFLOW_TYPE_UNKNOWN
                   risk_level := RISK_LEVEL_MEDIUM
                   plan := Classifier.generate_plan RISK_LEVEL_MEDIUM s.pr_create
                   plan_index := 0 } := by
    unfold Classifier.execute
    rw [hcl]
    rfl
  exact ⟨_, hex, rfl, rfl, rfl, hmem.1, hmem.2.1, hmem.2.2.1, hmem.2.2.2⟩


/-- C9 witness: the Classifier node on a concrete state with empty pipeline
YAML yields the default profile and plan. -/
theorem c9_classifier_default_profile_witness :
    ∃ s2, Classifier.execute (fun _ => .ok Classifier.get_default_profile)
        (fun _ => .yamlError) sample_state = .ok s2 ∧
      s2.workflow_type = WORKFLOW_TYPE_UNKNOWN ∧
      s2.risk_level = RISK_LEVEL_MEDIUM ∧
      s2.plan = Classifier.generate_plan RISK_LEVEL_MEDIUM sample_state.pr_create ∧
      TOOL_VALIDATE ∈ s2.plan ∧ TOOL_ANALYSE ∈ s2.plan ∧ TOOL_REVIEW ∈ s2.plan ∧
      s2.plan ≠ [] :=
  c9_classifier_default_profile (fun _ => .ok Classifier.get_default_profile)
    (fun _ => .yamlError) sample_state (Or.inr (Or.inl rfl))

/-- The state on which the orchestrator loop's dispatcher is evaluated for
C1: the decision was `run` for the first plan slot `validate`, and the
fetched pipeline YAML is empty, so the Validator's `_execute` returns with
`state.error` set. -/
def c1_state : PipelineState :=
  { sample_state with plan := ["validate", "analyse"], next_action := "run"
                      current_tool := "validate" }

/-- The registry dispatch for the C1 scenario: `tools["validate"]._execute`
is `Validator._execute`, which catches its own exceptions and returns the
mutated state; the YAML parser is never reached on empty input. -/
def validate_tool : String → PipelineState → PipelineState × Option String :=
  fun _ s => (Validator.execute (fun _ => none) s, none)

/-- C1: evaluating the orchestrator loop's `execute_node` at the failing
input shows the completion invariant broken in both directions: when the
Validator returns with `state.error` set, the stage name is still appended
to `completed_tools`; and when a stage's `_execute` raises, `state.error`
is left unset (only a FAILED log entry is appended). -/
theorem c1_loop_breaks_completion_invariant :
    ((execute_node validate_tool c1_state).error =
        "pipeline_yaml must be a non-empty string" ∧
      "validate" ∈ (execute_node validate_tool c1_state).completed_tools) ∧
    ((execute_node tool_raise c1_state).error = "" ∧
      "validate" ∉ (execute_node tool_raise c1_state).completed_tools) := by
  refine ⟨⟨?_, ?_⟩, ⟨rfl, ?_⟩⟩ <;> decide

/-- The state exhibiting the extra DECIDING exit: no error, plan slot
available, but a recorded post-validation result that is not valid. -/
def c3_state : PipelineState :=
  { sample_state with plan := ["validate"], post_validation_result := .filled false }

/-- C3 counterexample: a DECIDING pass on a state with `state.error` unset
and `planIndex < len(plan)` still emits `nextAction = complete` — the
post-validation early exit at `nodes.py` lines 93-102 fires — so `complete`
is not emitted exactly when `state.error` is set or `planIndex = len(plan)`,
and the oracle is not consulted for that slot. -/
theorem c3_early_exit_counterexample :
    (decision_node llm_run c3_state).1.next_action = "complete" ∧
    c3_state.error = "" ∧ c3_state.plan_index < c3_state.plan.length :=
  ⟨rfl, rfl, by decide⟩

/-- C3 amended: a DECIDING pass emits `nextAction = complete` exactly when
`state.error` is set, or a recorded post-validation result is present and
not valid, or `planIndex = len(plan)`; in every other case it sets
`currentStage` to `plan[planIndex]` and consults the Decision Oracle — and
across any run of the loop the oracle is consulted at most once per plan
slot, for stages that leave the plan cursor alone (as every registry stage
does). -/
theorem c3_deciding_complete_iff_and_oracle_once
    (llm : PipelineState → String → LLMOutcome)
    (toolExec : String → PipelineState → PipelineState × Option String)
    (hframe : ∀ t s, (toolExec t s).1.plan_index = s.plan_index) :
    (∀ s, ((decision_node llm s).1.next_action = "complete" ↔
        (s.error ≠ "" ∨ postValidationFailed s = true ∨ s.plan.length ≤ s.plan_index)) ∧
      (s.error = "" → postValidationFailed s = false → s.plan_index < s.plan.length →
        (decision_node llm s).1.current_tool = s.plan.getD s.plan_index "" ∧
        (decision_node llm s).2 = true)) ∧
    (∀ n s i, (oracleIdxs (loopRun llm toolExec n s).2).count i ≤ 1) :=
  ⟨fun s => ⟨decision_node_complete_iff llm s, decision_node_sets_tool llm s⟩,
    oracleIdxs_count_le_one llm toolExec hframe⟩

/-- C3 witness: on a concrete fresh state with a two-stage plan, the
DECIDING pass sets the current tool to the first plan entry and consults
the oracle. -/
theorem c3_deciding_witness :
    (decision_node llm_run { sample_state with plan := ["validate", "analyse"] }).1.current_tool
        = ({ sample_state with
              plan := ["validate", "analyse"] } : PipelineState).plan.getD
            ({ sample_state with
                plan := ["validate", "analyse"] } : PipelineState).plan_index "" ∧
    (decision_node llm_run { sample_state with plan := ["validate", "analyse"] }).2 = true :=
  ((c3_deciding_complete_iff_and_oracle_once llm_run tool_id (fun _ _ => rfl)).1
    { sample_state with plan := ["validate", "analyse"] }).2 rfl rfl (by decide)

/-- C6: entering a DECIDING pass with `state.error` non-empty produces no
further events of any kind — in particular no stage executes at any later
iteration — and the loop halts in that very pass, returning the
complete-marked state no matter how much fuel remains. -/
theorem c6_error_halts_loop (llm : PipelineState → String → LLMOutcome)
    (toolExec : String → PipelineState → PipelineState × Option String)
    (s : PipelineState) (n : Nat) (h : s.error ≠ "") :
    (loopRun llm toolExec (n + 1) s).2 = [] ∧
    (loopRun llm toolExec (n + 1) s).1 =
      { s with next_action := "complete"
               agent_reasoning := "Workflow stopped due to error: " ++ s.error } := by
  have hd : decision_node llm s =
      ({ s with next_action := "complete"
                agent_reasoning := "Workflow stopped due to error: " ++ s.error },
       false) := by
    unfold decision_node
    simp [h]
  simp [loopRun, hd, should_continue]

/-- C6 witness: a concrete errored state halts the loop at once. -/
theorem c6_error_halts_loop_witness :
    (loopRun llm_run tool_id 5 { sample_state with error := "boom" }).2 = [] ∧
    (loopRun llm_run tool_id 5 { sample_state with error := "boom" }).1 =
      { sample_state with
          error := "boom", next_action := "complete"
          agent_reasoning := "Workflow stopped due to error: boom" } :=
  c6_error_halts_loop llm_run tool_id { sample_state with error := "boom" } 4
    (by decide)

/-- The per-step accumulator of `_calculate_risk_level` adds exactly the
step's additive contribution. -/
theorem step_risk_eq (risk_score : Nat) (step : String) :
    Classifier.step_risk risk_score step = risk_score + specStepScore step := by
  unfold Classifier.step_risk specStepScore
  cases h1 : anyKeyword step.toLower ["deploy", "aws", "azure", "gcp", "kubectl"] <;>
    cases h2 : anyKeyword step.toLower ["terraform", "cloudformation", "pulumi"] <;>
    cases h3 : (pyIn "secret" step.toLower || pyIn "$\x7b\x7b" step) <;>
    cases h4 : anyKeyword step.toLower ["migrate", "database", "db", "sql"] <;>
    cases h5 : anyKeyword step.toLower ["docker", "container", "registry"] <;>
    simp [h1, h2, h3, h4, h5] <;> omega

/-- Folding the per-step accumulator over a job's steps adds the sum of the
steps' contributions. -/
theorem foldl_step_risk (steps : List String) :
    ∀ risk_score, steps.foldl Classifier.step_risk risk_score =
      risk_score + (steps.map specStepScore).sum := by
  induction steps with
  | nil => intro risk_score; simp
  | cons x xs ih =>
      intro risk_score
      simp only [List.foldl_cons, List.map_cons, List.sum_cons, step_risk_eq, ih]
      omega

/-- The per-job accumulator of `_calculate_risk_level` adds exactly the
job's additive contribution. -/
theorem job_risk_eq (risk_score : Nat) (job : WfJob) :
    Classifier.job_risk risk_score job = risk_score + specJobScore job := by
  unfold Classifier.job_risk specJobScore
  cases hc : anyKeyword
      ((job.name ++ " " ++ job.env_str ++ " " ++ job.environment_str).toLower)
      ["production", "prod", "deploy", "release"] <;>
    simp [hc, foldl_step_risk] <;> omega

/-- Folding the per-job accumulator over the workflow's jobs adds the sum
of the jobs' contributions. -/
theorem foldl_job_risk (jobs : List WfJob) :
    ∀ risk_score, jobs.foldl Classifier.job_risk risk_score =
      risk_score + (jobs.map specJobScore).sum := by
  induction jobs with
  | nil => intro risk_score; simp
  | cons x xs ih =>
      intro risk_score
      simp only [List.foldl_cons, List.map_cons, List.sum_cons, job_risk_eq, ih]
      omega

/-- C8: for every parsed workflow, the Classifier's risk level is decided by
the additive score — +30 per production/deploy/release job context, and per
step +20 cloud-deploy, +25 infrastructure-as-code, +10 secret-bearing,
+15 database/migration, +5 container/registry — with high at score ≥ 50,
medium at score ≥ 20 and low otherwise. -/
theorem c8_risk_level_additive (workflow : ParsedWorkflow) :
    Classifier.calculate_risk_level workflow =
      if 50 ≤ specRiskScore workflow then RISK_LEVEL_HIGH
      else if 20 ≤ specRiskScore workflow then RISK_LEVEL_MEDIUM
      else RISK_LEVEL_LOW := by
  unfold Classifier.calculate_risk_level specRiskScore
  rw [foldl_job_risk]
  simp

end PipelineOptimiser
